import Mathlib

/-!
Shallow embedding of the SpareLens dashboard's client-side view-state
controller (frontend dashboard components), together with proofs of the
spec's claims about it.

The repository contains two near-duplicate dashboard components:
* `PartA` below embeds the table-library variant
  (`src/unnamed/part_002`, built on `@tanstack/react-table`);
* `PartB` below embeds the manual-pagination variant
  (`src/unnamed/part_003`).

React `useState` fields become record fields; each event handler or
fetch-resolution callback becomes a pure state-transition function.  The
asynchronous fetches are split into their synchronous start (guard +
loading/error bookkeeping + the issued request key) and their resolution
handlers (`then` / `catch` / `finally` bodies), which in the source run
later against whatever state is current; crucially, the source resolution
handlers perform no key comparison, which is what the supersession claim
exercises.

JavaScript truthiness matters in several places (`!selectedFileId`,
`!selectedXColumn`, `a || b` fallback chains): `null`/`undefined` and the
empty string are all falsy.  Optional string state is modelled as
`Option String` with `none` for null/undefined, and truthiness tests are
modelled by `strTruthy`, which is false on `none` and on `some ""`.
-/

/-- A JavaScript runtime value as far as the dashboard inspects one:
`typeof v === "number" && !isNaN(v)` is the only type test performed
(column-type sniffing), so numbers carry an `Int` payload and `NaN` is a
separate constructor (it has `typeof == "number"` but fails the `isNaN`
test). -/
inductive JValue where
  | num (x : Int)
  | nan
  | str (s : String)
  | jbool (b : Bool)
  | jnull
  | undef
deriving DecidableEq, Repr

/-- A row object `Record<string, unknown>` as an association list. -/
abbrev Row := List (String × JValue)

/-- `row[col]`: property access; a missing key yields `undefined`. -/
def getField (r : Row) (c : String) : JValue :=
  match r.find? (fun p => p.1 == c) with
  | some p => p.2
  | none => JValue.undef

/-- `typeof row[col] === "number" && !isNaN(row[col] as number)`. -/
def isNumberNonNaN : JValue → Bool
  | JValue.num _ => true
  | _ => false

/-- JS truthiness of a nullable string: `null`/`undefined` and `""` are
falsy. -/
def strTruthy : Option String → Bool
  | none => false
  | some s => s != ""

/-- JS `a || b` on nullable strings: `b` when `a` is falsy, else `a`. -/
def jsOrStr (a b : Option String) : Option String :=
  if strTruthy a then a else b

/-- `interface UploadedFile` (identical in both dashboard variants). -/
structure UploadedFile where
  id : String
  original_filename : String
  upload_date : String
deriving DecidableEq, Repr

/-- `interface TableData` (identical in both dashboard variants). -/
structure TableData where
  data : List Row
  total_count : Nat
  page : Nat
  page_size : Nat
  columns : List String
deriving DecidableEq, Repr

/-- `interface ChartApiResponse` (identical in both dashboard variants). -/
structure ChartApiResponse where
  chart_type : String
  data : List Row
  x_column : String
  y_column : String
deriving DecidableEq, Repr

/-- One entry of tanstack's `SortingState` (`{id, desc}`), variant A. -/
structure SortItem where
  id : String
  desc : Bool
deriving DecidableEq, Repr

/-- Tanstack `PaginationState` (`{pageIndex, pageSize}`), variant A. -/
structure Pagination where
  pageIndex : Nat
  pageSize : Nat
deriving DecidableEq, Repr

/-- `columns.find((col) => tableData.data.slice(0, 5).some((row) =>
typeof row[col] === "number" && !isNaN(row[col])))` — the 5-row numeric
sample test shared verbatim by both variants. -/
def numericColumn (cols : List String) (rows : List Row) : Option String :=
  cols.find? (fun c => (rows.take 5).any (fun r => isNumberNonNaN (getField r c)))

/-- The re-inference trigger for one axis:
`!selected || !columns.includes(selected)` (shared verbatim by both
variants; note JS falsiness of `""`). -/
def needsInfer (cols : List String) (sel : Option String) : Bool :=
  !(strTruthy sel) || !(cols.contains (sel.getD ""))

/-- The column-inference block shared (verbatim, modulo where the columns
come from) by the variant-A `useEffect` on `tableData` and the variant-B
`fetchData` success path:

```js
if (columns.length > 0) {
  if (!selectedXColumn || !columns.includes(selectedXColumn))
    setSelectedXColumn(columns[0]);
  if (!selectedYColumn || !columns.includes(selectedYColumn)) {
    const numericColumn = columns.find(...);
    setSelectedYColumn(numericColumn || columns[1] || columns[0]);
  }
} else { setSelectedXColumn(null); setSelectedYColumn(null); }
```

Returns the (new x, new y) pair. -/
def inferChart (cols : List String) (rows : List Row) (x y : Option String) :
    Option String × Option String :=
  if 0 < cols.length then
    ( if needsInfer cols x then cols.head? else x,
      if needsInfer cols y then
        jsOrStr (jsOrStr (numericColumn cols rows) (cols.get? 1)) cols.head?
      else y )
  else (none, none)

/-- Spec-side formulation: a selection is valid for a column set when it
is a nonempty name that is a member of the set. -/
def validSelection (cols : List String) (sel : Option String) : Bool :=
  match sel with
  | none => false
  | some s => (s != "") && cols.contains s

/-- Spec-side formulation of the y-default fallback: `columns[1]` when it
exists and is a nonempty name, otherwise `columns[0]`. -/
def specFallbackY (cols : List String) : Option String :=
  match cols.get? 1 with
  | some c => if c = "" then cols.head? else some c
  | none => cols.head?

/-- Spec-side formulation of the y default: the first column with a
numeric sample among the first five rows, provided its name is nonempty;
otherwise the `columns[1]`/`columns[0]` fallback. -/
def specDefaultY (cols : List String) (rows : List Row) : Option String :=
  match numericColumn cols rows with
  | some c => if c = "" then specFallbackY cols else some c
  | none => specFallbackY cols

/-- The inference contract written in the spec's vocabulary (amended for
JS truthiness): clear both on an empty column set; keep any valid
selection; default x to `columns[0]`; default y per `specDefaultY`. -/
def specInfer (cols : List String) (rows : List Row) (x y : Option String) :
    Option String × Option String :=
  if cols.isEmpty then (none, none)
  else
    ( if validSelection cols x then x else cols.head?,
      if validSelection cols y then y else specDefaultY cols rows )

/-- The example row `{name: "a", age: 30, city: "x"}` from the spec's
inference example. -/
def exampleRow : Row :=
  [("name", JValue.str "a"), ("age", JValue.num 30), ("city", JValue.str "x")]

namespace PartA

/-! ## Variant A: the table-library dashboard (`src/unnamed/part_002`) -/

/-- The `useState` fields of the variant-A `DashboardPage` component that
take part in the controller logic (upload-dialog bookkeeping omitted: it
never touches these fields except through `fetchFiles`, modelled
separately). -/
structure State where
  files : List UploadedFile
  selectedFileId : Option String
  tableData : Option TableData
  chartData : Option ChartApiResponse
  currentPage : Nat
  pageSize : Nat
  sorting : List SortItem
  globalFilter : String
  selectedXColumn : Option String
  selectedYColumn : Option String
  selectedChartType : String
  isLoadingTable : Bool
  isLoadingChart : Bool
  dataFetchError : Option String
  chartFetchError : Option String
deriving DecidableEq, Repr

/-- The `useState` initial values. -/
def initState : State where
  files := []
  selectedFileId := none
  tableData := none
  chartData := none
  currentPage := 1
  pageSize := 10
  sorting := []
  globalFilter := ""
  selectedXColumn := none
  selectedYColumn := none
  selectedChartType := "bar"
  isLoadingTable := false
  isLoadingChart := false
  dataFetchError := none
  chartFetchError := none

/-- The table-page request key: the slice of state sent as the
`/data/{id}` request parameters (`fetchData`'s `params` plus the URL's
file id). -/
structure TableKey where
  fileId : Option String
  page : Nat
  pageSize : Nat
  sorting : List SortItem
  filterText : String
deriving DecidableEq, Repr

/-- The key of the table-page request that `fetchData` would issue from a
given state. -/
def tableKey (s : State) : TableKey :=
  ⟨s.selectedFileId, s.currentPage, s.pageSize, s.sorting, s.globalFilter⟩

/-- The chart request key: the `/charts/{id}` request parameters. -/
structure ChartKey where
  fileId : String
  chart_type : String
  x_column : String
  y_column : String
deriving DecidableEq, Repr

/-- `handleFileSelect`: `setSelectedFileId(fileId); setCurrentPage(1);
setSorting([]); setGlobalFilter("")`. -/
def handleFileSelect (s : State) (fileId : String) : State :=
  { s with selectedFileId := some fileId, currentPage := 1,
           sorting := [], globalFilter := "" }

/-- `onSortingChange` (after resolving the tanstack updater to a value):
`setSorting(newSorting); setCurrentPage(1)`. -/
def onSortingChange (s : State) (newSorting : List SortItem) : State :=
  { s with sorting := newSorting, currentPage := 1 }

/-- The filter `Input`'s `onChange`: `setGlobalFilter(event.target.value);
setCurrentPage(1)`. -/
def filterInputChange (s : State) (text : String) : State :=
  { s with globalFilter := text, currentPage := 1 }

/-- `onPaginationChange` (after resolving the tanstack updater to a
value): `setPageSize(newPagination.pageSize);
setCurrentPage(newPagination.pageIndex + 1);
if (newPagination.pageSize !== pageSize) setCurrentPage(1)` — the
comparison is against the closed-over previous `pageSize` and the last
`setCurrentPage` wins. -/
def onPaginationChange (s : State) (newPagination : Pagination) : State :=
  let s1 := { s with pageSize := newPagination.pageSize,
                     currentPage := newPagination.pageIndex + 1 }
  if newPagination.pageSize ≠ s.pageSize then { s1 with currentPage := 1 } else s1

/-- `fetchFiles` success path: `setFiles(response.data)` then the
three-branch selected-id fixup (see `src/unnamed/part_002` lines
118-140; byte-identical in `src/unnamed/part_003`). -/
def fetchFilesSuccess (s : State) (resp : List UploadedFile) : State :=
  let s1 := { s with files := resp }
  if !resp.isEmpty && !(strTruthy s.selectedFileId) then
    { s1 with selectedFileId := resp.head?.map UploadedFile.id }
  else if resp.isEmpty && strTruthy s.selectedFileId then
    { s1 with selectedFileId := none }
  else if strTruthy s.selectedFileId
          && !(resp.any (fun f => s.selectedFileId == some f.id)) then
    { s1 with selectedFileId :=
        if !resp.isEmpty then resp.head?.map UploadedFile.id else none }
  else s1

/-- `fetchFiles` catch path: `setDataFetchError("Failed to fetch
files.")` — note it writes the table-page error slot. -/
def fetchFilesFailure (s : State) : State :=
  { s with dataFetchError := some "Failed to fetch files." }

/-- The synchronous part of `fetchData`: the `!selectedFileId` guard
(clear the table and bail out) or the loading/error bookkeeping plus the
issued request key. The source's resolution handlers receive no key. -/
def fetchDataStart (s : State) : State × Option TableKey :=
  if strTruthy s.selectedFileId then
    ({ s with isLoadingTable := true, dataFetchError := none }, some (tableKey s))
  else
    ({ s with tableData := none }, none)

/-- `fetchData` success resolution: `setTableData(response.data)` and the
`finally` clause `setIsLoadingTable(false)` — committed unconditionally,
with no comparison against any current key. -/
def fetchDataSuccess (s : State) (resp : TableData) : State :=
  { s with tableData := some resp, isLoadingTable := false }

/-- `fetchData` catch resolution: `setTableData(null);
setDataFetchError("Failed to fetch data.")` plus the `finally` clause. -/
def fetchDataFailure (s : State) : State :=
  { s with tableData := none, dataFetchError := some "Failed to fetch data.",
           isLoadingTable := false }

/-- The column-inference `useEffect` (runs when `tableData` is present;
`src/unnamed/part_002` lines 225-258). -/
def inferenceEffect (s : State) : State :=
  match s.tableData with
  | some td =>
      let xy := inferChart td.columns td.data s.selectedXColumn s.selectedYColumn
      { s with selectedXColumn := xy.1, selectedYColumn := xy.2 }
  | none => s

/-- The synchronous part of `fetchChartData`: the
`!selectedFileId || !selectedXColumn || !selectedYColumn` guard (clear
the chart and bail out) or the loading/error bookkeeping plus the issued
request key. -/
def fetchChartStart (s : State) : State × Option ChartKey :=
  if strTruthy s.selectedFileId && strTruthy s.selectedXColumn
      && strTruthy s.selectedYColumn then
    ({ s with isLoadingChart := true, chartFetchError := none },
     some ⟨s.selectedFileId.getD "", s.selectedChartType,
           s.selectedXColumn.getD "", s.selectedYColumn.getD ""⟩)
  else
    ({ s with chartData := none }, none)

/-- `fetchChartData` success resolution: `setChartData(response.data)`
plus the `finally` clause. -/
def fetchChartSuccess (s : State) (resp : ChartApiResponse) : State :=
  { s with chartData := some resp, isLoadingChart := false }

/-- `fetchChartData` catch resolution: `setChartData(null);
setChartFetchError(...)` plus the `finally` clause. -/
def fetchChartFailure (s : State) : State :=
  { s with chartData := none,
           chartFetchError :=
             some "Failed to fetch chart data. Check column types or backend logs.",
           isLoadingChart := false }

/-- What the Data Table card renders. -/
inductive TablePanel where
  | selectPrompt
  | errorView (msg : String)
  | spinner
  | tableView (td : TableData)
  | blank
deriving DecidableEq, Repr

/-- The Data Table card's conditional rendering chain
(`src/unnamed/part_002` lines 474-599): `!selectedFileId ? prompt :
dataFetchError ? error : isLoadingTable && !tableData ? spinner :
tableData ? table : null`. -/
def tablePanel (s : State) : TablePanel :=
  if !(strTruthy s.selectedFileId) then
    TablePanel.selectPrompt
  else
    match s.dataFetchError with
    | some m => TablePanel.errorView m
    | none =>
        if s.isLoadingTable && s.tableData.isNone then
          TablePanel.spinner
        else
          match s.tableData with
          | some td => TablePanel.tableView td
          | none => TablePanel.blank

end PartA

namespace PartB

/-! ## Variant B: the manual-pagination dashboard (`src/unnamed/part_003`) -/

/-- `"asc" | "desc"`. -/
inductive SortOrder where
  | asc
  | desc
deriving DecidableEq, Repr

/-- The `useState` fields of the variant-B `DashboardPage` component that
take part in the controller logic. -/
structure State where
  files : List UploadedFile
  selectedFileId : Option String
  tableData : Option TableData
  chartData : Option ChartApiResponse
  currentPage : Nat
  pageSize : Nat
  sortColumn : Option String
  sortOrder : SortOrder
  searchQuery : String
  selectedXColumn : Option String
  selectedYColumn : Option String
  selectedChartType : String
  isLoadingTable : Bool
  isLoadingChart : Bool
  dataFetchError : Option String
  chartFetchError : Option String
deriving DecidableEq, Repr

/-- The `useState` initial values. -/
def initState : State where
  files := []
  selectedFileId := none
  tableData := none
  chartData := none
  currentPage := 1
  pageSize := 10
  sortColumn := none
  sortOrder := SortOrder.asc
  searchQuery := ""
  selectedXColumn := none
  selectedYColumn := none
  selectedChartType := "bar"
  isLoadingTable := false
  isLoadingChart := false
  dataFetchError := none
  chartFetchError := none

/-- `handleFileSelect`: `setSelectedFileId(fileId); setCurrentPage(1);
setSortColumn(null); setSearchQuery("")`. -/
def handleFileSelect (s : State) (fileId : String) : State :=
  { s with selectedFileId := some fileId, currentPage := 1,
           sortColumn := none, searchQuery := "" }

/-- `handleSort`: toggle asc/desc on the already-sorted column, otherwise
start sorting the new column ascending. Note: no `setCurrentPage` call
and no branch that returns to the unsorted state. -/
def handleSort (s : State) (column : String) : State :=
  if s.sortColumn = some column then
    { s with sortOrder :=
        if s.sortOrder = SortOrder.asc then SortOrder.desc else SortOrder.asc }
  else
    { s with sortColumn := some column, sortOrder := SortOrder.asc }

/-- The search `Input`'s `onChange`: `setSearchQuery(e.target.value)` —
and nothing else. -/
def searchInputChange (s : State) (text : String) : State :=
  { s with searchQuery := text }

/-- The page-size `Select`'s `onValueChange`:
`setPageSize(Number(value))` — and nothing else. -/
def pageSizeSelectChange (s : State) (n : Nat) : State :=
  { s with pageSize := n }

/-- `fetchFiles` success path — byte-identical to variant A's. -/
def fetchFilesSuccess (s : State) (resp : List UploadedFile) : State :=
  let s1 := { s with files := resp }
  if !resp.isEmpty && !(strTruthy s.selectedFileId) then
    { s1 with selectedFileId := resp.head?.map UploadedFile.id }
  else if resp.isEmpty && strTruthy s.selectedFileId then
    { s1 with selectedFileId := none }
  else if strTruthy s.selectedFileId
          && !(resp.any (fun f => s.selectedFileId == some f.id)) then
    { s1 with selectedFileId :=
        if !resp.isEmpty then resp.head?.map UploadedFile.id else none }
  else s1

/-- `fetchFiles` catch path: `setDataFetchError("Failed to fetch
files.")`. -/
def fetchFilesFailure (s : State) : State :=
  { s with dataFetchError := some "Failed to fetch files." }

/-- `fetchData` success resolution (`src/unnamed/part_003` lines
154-184): `setTableData(response.data)` followed inline by the column
inference over `response.data.columns`, plus the `finally` clause. No
key comparison. -/
def fetchDataSuccess (s : State) (resp : TableData) : State :=
  let xy := inferChart resp.columns resp.data s.selectedXColumn s.selectedYColumn
  { s with tableData := some resp, selectedXColumn := xy.1,
           selectedYColumn := xy.2, isLoadingTable := false }

/-- `fetchData` catch resolution: `setTableData(null);
setDataFetchError("Failed to fetch data.")` plus the `finally` clause. -/
def fetchDataFailure (s : State) : State :=
  { s with tableData := none, dataFetchError := some "Failed to fetch data.",
           isLoadingTable := false }

/-- The synchronous part of `fetchChartData` — same logic as variant
A's. -/
def fetchChartStart (s : State) : State × Option PartA.ChartKey :=
  if strTruthy s.selectedFileId && strTruthy s.selectedXColumn
      && strTruthy s.selectedYColumn then
    ({ s with isLoadingChart := true, chartFetchError := none },
     some ⟨s.selectedFileId.getD "", s.selectedChartType,
           s.selectedXColumn.getD "", s.selectedYColumn.getD ""⟩)
  else
    ({ s with chartData := none }, none)

/-- `fetchChartData` success resolution. -/
def fetchChartSuccess (s : State) (resp : ChartApiResponse) : State :=
  { s with chartData := some resp, isLoadingChart := false }

/-- `fetchChartData` catch resolution. -/
def fetchChartFailure (s : State) : State :=
  { s with chartData := none,
           chartFetchError :=
             some "Failed to fetch chart data. Check column types or backend logs.",
           isLoadingChart := false }

end PartB

/-! ## Concrete scenario data -/

/-- A page-1 table payload (the response of a request issued with
`page = 1`). -/
def c1_payload1 : TableData := ⟨[], 20, 1, 10, ["a"]⟩

/-- A page-2 table payload (the response of a request issued with
`page = 2`). -/
def c1_payload2 : TableData := ⟨[], 20, 2, 10, ["a"]⟩

/-- Supersession scenario, step 0: the user selects file `"f"`. -/
def c1_s0 : PartA.State := PartA.handleFileSelect PartA.initState "f"

/-- Step 1: the effect runs `fetchData`, issuing a request under the
page-1 key; the pair is (state after the synchronous part, issued key). -/
def c1_issue1 : PartA.State × Option PartA.TableKey := PartA.fetchDataStart c1_s0

/-- Step 2: before that request resolves, the user moves to page 2. -/
def c1_s1 : PartA.State := PartA.onPaginationChange c1_issue1.1 ⟨1, 10⟩

/-- Step 3: the effect re-runs `fetchData`, issuing a request under the
page-2 key. -/
def c1_issue2 : PartA.State × Option PartA.TableKey := PartA.fetchDataStart c1_s1

/-- Step 4: the page-2 request resolves first and commits its payload. -/
def c1_s2 : PartA.State := PartA.fetchDataSuccess c1_issue2.1 c1_payload2

/-- Step 5: the stale page-1 request now resolves; the source handler
`setTableData(response.data)` commits it unconditionally. -/
def c1_final : PartA.State := PartA.fetchDataSuccess c1_s2 c1_payload1

/-- A one-row, one-column table payload. -/
def c4_td : TableData := ⟨[[("a", JValue.num 1)]], 1, 1, 10, ["a"]⟩

/-- A variant-A state whose table-page stream is Ready: file selected,
page loaded, no table error. -/
def c4_ready : PartA.State :=
  { PartA.initState with selectedFileId := some "f", tableData := some c4_td }

/-! ## Helper lemmas -/

/-- The source's re-inference trigger is the negation of "valid
selection". -/
theorem needsInfer_eq_not_valid (cols : List String) (sel : Option String) :
    needsInfer cols sel = !(validSelection cols sel) := by
  cases sel with
  | none => rfl
  | some s =>
      simp [needsInfer, validSelection, strTruthy, Bool.not_and]

/-- The source's JS `||` fallback chain for the default y column computes
the spec-side default. -/
theorem jsOr_chain_eq_specDefaultY (cols : List String) (rows : List Row) :
    jsOrStr (jsOrStr (numericColumn cols rows) (cols.get? 1)) cols.head?
      = specDefaultY cols rows := by
  unfold specDefaultY specFallbackY
  cases hn : numericColumn cols rows with
  | none =>
      cases h1 : cols.get? 1 with
      | none => simp [jsOrStr, strTruthy]
      | some c1 =>
          by_cases hc1 : c1 = "" <;>
            simp [jsOrStr, strTruthy, hc1]
  | some c =>
      by_cases hc : c = ""
      · subst hc
        cases h1 : cols.get? 1 with
        | none => simp [jsOrStr, strTruthy]
        | some c1 =>
            by_cases hc1 : c1 = "" <;>
              simp [jsOrStr, strTruthy, hc1]
      · simp [jsOrStr, strTruthy, hc]

/-- The source inference block computes the spec-side inference
contract. -/
theorem inferChart_eq_specInfer (cols : List String) (rows : List Row)
    (x y : Option String) :
    inferChart cols rows x y = specInfer cols rows x y := by
  unfold inferChart specInfer
  rw [needsInfer_eq_not_valid, needsInfer_eq_not_valid, jsOr_chain_eq_specDefaultY]
  cases cols with
  | nil => simp
  | cons c cs =>
      have hlen : 0 < (c :: cs).length := by simp
      rw [if_pos hlen]
      simp only [List.isEmpty_cons, Bool.false_eq_true, if_false]
      cases hx : validSelection (c :: cs) x <;>
        cases hy : validSelection (c :: cs) y <;> simp

/-! ## Claim theorems -/

/-- C1 (code bug): the table-page stream has no key supersession. With
file `"f"` selected, a fetch is issued under the page-1 key; the user
then moves to page 2, the page-2 fetch resolves and commits; when the
stale page-1 fetch later resolves, the source's resolution handler
(`setTableData(response.data)`, with no key comparison) overwrites the
committed page-2 result, so the committed result no longer matches the
stream's current key — contradicting the claimed discard of superseded
results. -/
theorem C1_code_bug_stale_overwrite :
    c1_issue1.2 = some ⟨some "f", 1, 10, [], ""⟩ ∧
    c1_issue2.2 = some ⟨some "f", 2, 10, [], ""⟩ ∧
    c1_s2.tableData = some c1_payload2 ∧
    c1_final.tableData = some c1_payload1 ∧
    (PartA.tableKey c1_final).page = 2 ∧
    c1_payload1.page = 1 ∧
    c1_payload1 ≠ c1_payload2 := by decide

/-- C2 counterexample: in the manual-pagination variant, `handleSort`
(the `setSort` operation) performs no `setCurrentPage(1)`; from a state
on page 3 it leaves the page at 3, falsifying "page == 1 immediately
after every such call". -/
theorem C2_counterexample_sort_keeps_page :
    (PartB.handleSort { PartB.initState with currentPage := 3 } "A").currentPage = 3 ∧
    (3 : Nat) ≠ 1 := by decide

/-- C2 (amended): in the table-library variant every `setSort`
(`onSortingChange`), `setFilterText` (filter input change), `setPageSize`
(`onPaginationChange` with a new size) and `selectDataset`
(`handleFileSelect`) call leaves `page = 1`; in the manual-pagination
variant only `selectDataset` resets the page, while `setSort`,
`setFilterText` and `setPageSize` leave it unchanged. -/
theorem C2_amended_page_reset_per_variant :
    (∀ (s : PartA.State) (fid : String),
      (PartA.handleFileSelect s fid).currentPage = 1) ∧
    (∀ (s : PartA.State) (ns : List SortItem),
      (PartA.onSortingChange s ns).currentPage = 1) ∧
    (∀ (s : PartA.State) (t : String),
      (PartA.filterInputChange s t).currentPage = 1) ∧
    (∀ (s : PartA.State) (p : Pagination), p.pageSize ≠ s.pageSize →
      (PartA.onPaginationChange s p).currentPage = 1) ∧
    (∀ (s : PartB.State) (fid : String),
      (PartB.handleFileSelect s fid).currentPage = 1) ∧
    (∀ (s : PartB.State) (c : String),
      (PartB.handleSort s c).currentPage = s.currentPage) ∧
    (∀ (s : PartB.State) (t : String),
      (PartB.searchInputChange s t).currentPage = s.currentPage) ∧
    (∀ (s : PartB.State) (n : Nat),
      (PartB.pageSizeSelectChange s n).currentPage = s.currentPage) := by
  refine ⟨fun s fid => rfl, fun s ns => rfl, fun s t => rfl, ?_,
          fun s fid => rfl, ?_, fun s t => rfl, fun s n => rfl⟩
  · intro s p h
    simp [PartA.onPaginationChange, h]
  · intro s c
    by_cases hc : s.sortColumn = some c <;> simp [PartB.handleSort, hc]

/-- Witness for C2 (amended): instantiates the page-size conjunct at the
initial state (page size 10) with a change to size 5. -/
theorem C2_amended_witness :
    (5 : Nat) ≠ 10 ∧
    (PartA.onPaginationChange PartA.initState ⟨3, 5⟩).currentPage = 1 :=
  ⟨by decide,
   C2_amended_page_reset_per_variant.2.2.2.1 PartA.initState ⟨3, 5⟩ (by decide)⟩

/-- C3 counterexample: three `handleSort("A")` applications starting from
the initial (no-sort) state do not return to no-sort — the sort column is
still set. -/
theorem C3_counterexample_three_sorts_not_cleared :
    (PartB.handleSort (PartB.handleSort (PartB.handleSort
        PartB.initState "A") "A") "A").sortColumn ≠ none := by decide

/-- C3 (amended): `handleSort` is a two-state toggle. From any no-sort
state, three applications to column "A" yield `{column "A", asc}`
(asc → desc → asc), never no-sort; applying `handleSort("A")` then
`handleSort("B")` yields `{column "B", asc}`; and no `handleSort` call
ever returns the state to no-sort. -/
theorem C3_amended_two_state_toggle :
    (∀ (s : PartB.State), s.sortColumn = none →
      (PartB.handleSort (PartB.handleSort (PartB.handleSort
          s "A") "A") "A").sortColumn = some "A" ∧
      (PartB.handleSort (PartB.handleSort (PartB.handleSort
          s "A") "A") "A").sortOrder = PartB.SortOrder.asc ∧
      (PartB.handleSort (PartB.handleSort s "A") "B").sortColumn = some "B" ∧
      (PartB.handleSort (PartB.handleSort s "A") "B").sortOrder
        = PartB.SortOrder.asc) ∧
    (∀ (s : PartB.State) (c : String),
      (PartB.handleSort s c).sortColumn ≠ none) := by
  constructor
  · intro s h
    simp [PartB.handleSort, h]
  · intro s c
    by_cases hc : s.sortColumn = some c <;> simp [PartB.handleSort, hc]

/-- Witness for C3 (amended): instantiated at the initial state. -/
theorem C3_amended_witness :
    (PartB.handleSort (PartB.handleSort (PartB.handleSort
        PartB.initState "A") "A") "A").sortColumn = some "A" :=
  (C3_amended_two_state_toggle.1 PartB.initState rfl).1

/-- C4 counterexample: the dataset-list stream has no error slot of its
own — its failure handler writes `dataFetchError`, the table-page slot.
From a Ready state (file selected, page loaded), a dataset-list fetch
failure makes the Data Table card render the error view instead of the
loaded table, so a failure on one stream does block another stream's
state. -/
theorem C4_counterexample_files_failure_blocks_table :
    PartA.tablePanel c4_ready = PartA.TablePanel.tableView c4_td ∧
    (PartA.fetchFilesFailure c4_ready).dataFetchError
      = some "Failed to fetch files." ∧
    PartA.tablePanel (PartA.fetchFilesFailure c4_ready)
      = PartA.TablePanel.errorView "Failed to fetch files." ∧
    PartA.tablePanel (PartA.fetchFilesFailure c4_ready)
      ≠ PartA.tablePanel c4_ready := by decide

/-- C4 (amended): the table-page and chart-projection streams carry their
own error slots and are mutually isolated — a chart-projection failure
leaves the table result, table error, table loading flag and the rendered
table panel unchanged, and a table-page failure leaves the chart result,
chart error and chart loading flag unchanged (in both variants). The
dataset-list stream, however, shares the table-page error slot: its
failure handler writes `dataFetchError` (it does not touch the chart
slots). -/
theorem C4_amended_isolation :
    (∀ s : PartA.State,
      (PartA.fetchChartFailure s).tableData = s.tableData ∧
      (PartA.fetchChartFailure s).dataFetchError = s.dataFetchError ∧
      (PartA.fetchChartFailure s).isLoadingTable = s.isLoadingTable ∧
      PartA.tablePanel (PartA.fetchChartFailure s) = PartA.tablePanel s ∧
      (PartA.fetchDataFailure s).chartData = s.chartData ∧
      (PartA.fetchDataFailure s).chartFetchError = s.chartFetchError ∧
      (PartA.fetchDataFailure s).isLoadingChart = s.isLoadingChart ∧
      (PartA.fetchFilesFailure s).dataFetchError = some "Failed to fetch files." ∧
      (PartA.fetchFilesFailure s).chartFetchError = s.chartFetchError ∧
      (PartA.fetchFilesFailure s).chartData = s.chartData) ∧
    (∀ s : PartB.State,
      (PartB.fetchChartFailure s).tableData = s.tableData ∧
      (PartB.fetchChartFailure s).dataFetchError = s.dataFetchError ∧
      (PartB.fetchChartFailure s).isLoadingTable = s.isLoadingTable ∧
      (PartB.fetchDataFailure s).chartData = s.chartData ∧
      (PartB.fetchDataFailure s).chartFetchError = s.chartFetchError ∧
      (PartB.fetchDataFailure s).isLoadingChart = s.isLoadingChart ∧
      (PartB.fetchFilesFailure s).dataFetchError = some "Failed to fetch files.") :=
  ⟨fun s => ⟨rfl, rfl, rfl, rfl, rfl, rfl, rfl, rfl, rfl, rfl⟩,
   fun s => ⟨rfl, rfl, rfl, rfl, rfl, rfl, rfl⟩⟩

/-- C5 counterexample: with columns `["a", ""]` (two columns, the second
named by the empty string), no rows, and y absent, the claim's fallback
is `columns[1]` (that is, `""`), but the source's JS `||` chain treats
the empty-string name as falsy and yields `columns[0] = "a"` instead. -/
theorem C5_counterexample_empty_name_fallback :
    ((["a", ""].get? 1) = some "" ∧ numericColumn ["a", ""] [] = none) ∧
    (inferChart ["a", ""] [] none none).2 = some "a" ∧
    (some "a" : Option String) ≠ some "" := by decide

/-- C5 (amended): the inference block equals the spec-side contract in
which the JS falsiness of empty-string names is made explicit — y is set
to the first column with a numeric sample among the first 5 rows provided
its name is nonempty, otherwise to `columns[1]` when that exists and is
nonempty, otherwise to `columns[0]`; x defaults to `columns[0]` when the
selection is absent, empty, or not listed; an empty column list clears
both. On the spec's example (columns `["name","age","city"]`, one row
`{name:"a", age:30, city:"x"}`) the defaults are X = `"name"`,
Y = `"age"`. -/
theorem C5_amended_inference_contract :
    (∀ (cols : List String) (rows : List Row) (x y : Option String),
      inferChart cols rows x y = specInfer cols rows x y) ∧
    inferChart ["name", "age", "city"] [exampleRow] none none
      = (some "name", some "age") :=
  ⟨inferChart_eq_specInfer, by decide⟩

/-- C6 counterexample: a chart spec whose x selection is the empty-string
column name, with `""` genuinely present in the column list, is
nevertheless re-inferred (JS falsiness): inference changes x from `""` to
`"a"`, so a selection that is present in the column list is not always
preserved. -/
theorem C6_counterexample_empty_name_selection :
    (("" ∈ ["a", ""]) ∧ ("a" ∈ ["a", ""])) ∧
    inferChart ["a", ""] [] (some "") (some "a") ≠ (some "", some "a") := by
  decide

/-- C6 (amended): for every chart spec whose x and y selections are
nonempty column names present in the current column list, running the
inference block on that column list leaves both selections unchanged. -/
theorem C6_amended_valid_selection_preserved :
    ∀ (cols : List String) (rows : List Row) (x y : String),
      x ≠ "" → y ≠ "" → x ∈ cols → y ∈ cols →
      inferChart cols rows (some x) (some y) = (some x, some y) := by
  intro cols rows x y hx hy hxc hyc
  have hlen : 0 < cols.length := List.length_pos.mpr (by rintro rfl; simp at hxc)
  have hvx : validSelection cols (some x) = true := by
    simp [validSelection, hx, hxc]
  have hvy : validSelection cols (some y) = true := by
    simp [validSelection, hy, hyc]
  simp [inferChart, needsInfer_eq_not_valid, hvx, hvy, hlen]

/-- Witness for C6 (amended): a concrete valid selection is preserved. -/
theorem C6_amended_witness :
    inferChart ["a", "b"] [] (some "a") (some "b") = (some "a", some "b") :=
  C6_amended_valid_selection_preserved ["a", "b"] [] "a" "b"
    (by decide) (by decide) (by decide) (by decide)

/-- C7 (confirmed): in both variants, `handleFileSelect` (the
`selectDataset` operation) sets the dataset id, resets the page to 1,
clears the sort selection, and clears the filter text. -/
theorem C7_selectDataset_resets :
    ∀ (sa : PartA.State) (sb : PartB.State) (fid : String),
      (PartA.handleFileSelect sa fid).selectedFileId = some fid ∧
      (PartA.handleFileSelect sa fid).currentPage = 1 ∧
      (PartA.handleFileSelect sa fid).sorting = [] ∧
      (PartA.handleFileSelect sa fid).globalFilter = "" ∧
      (PartB.handleFileSelect sb fid).selectedFileId = some fid ∧
      (PartB.handleFileSelect sb fid).currentPage = 1 ∧
      (PartB.handleFileSelect sb fid).sortColumn = none ∧
      (PartB.handleFileSelect sb fid).searchQuery = "" :=
  fun sa sb fid => ⟨rfl, rfl, rfl, rfl, rfl, rfl, rfl, rfl⟩

/-- C8 (confirmed): after every dataset-list fetch, in both variants: a
selected id that is missing from the fetched list falls back to the first
entry (or to none when the list is empty), and when nothing was selected
and the list is non-empty the first entry is selected. "Selected" is the
source's truthiness test (`null`/`""` both count as no selection, exactly
as `fetchData`'s guard treats them). -/
theorem C8_files_refresh_fallback :
    (∀ (s : PartA.State) (resp : List UploadedFile),
      (strTruthy s.selectedFileId = true →
        resp.any (fun f => s.selectedFileId == some f.id) = false →
        resp.isEmpty = false →
        (PartA.fetchFilesSuccess s resp).selectedFileId
          = resp.head?.map UploadedFile.id) ∧
      (strTruthy s.selectedFileId = true → resp = [] →
        (PartA.fetchFilesSuccess s resp).selectedFileId = none) ∧
      (strTruthy s.selectedFileId = false → resp.isEmpty = false →
        (PartA.fetchFilesSuccess s resp).selectedFileId
          = resp.head?.map UploadedFile.id)) ∧
    (∀ (s : PartB.State) (resp : List UploadedFile),
      (strTruthy s.selectedFileId = true →
        resp.any (fun f => s.selectedFileId == some f.id) = false →
        resp.isEmpty = false →
        (PartB.fetchFilesSuccess s resp).selectedFileId
          = resp.head?.map UploadedFile.id) ∧
      (strTruthy s.selectedFileId = true → resp = [] →
        (PartB.fetchFilesSuccess s resp).selectedFileId = none) ∧
      (strTruthy s.selectedFileId = false → resp.isEmpty = false →
        (PartB.fetchFilesSuccess s resp).selectedFileId
          = resp.head?.map UploadedFile.id)) := by
  constructor
  · intro s resp
    refine ⟨fun h1 h2 h3 => ?_, fun h1 h2 => ?_, fun h1 h2 => ?_⟩
    · simp [PartA.fetchFilesSuccess, h1, h2, h3]
    · subst h2; simp [PartA.fetchFilesSuccess, h1]
    · have hne : resp ≠ [] := by intro h; subst h; simp at h2
      simp [PartA.fetchFilesSuccess, h1, h2, hne]
  · intro s resp
    refine ⟨fun h1 h2 h3 => ?_, fun h1 h2 => ?_, fun h1 h2 => ?_⟩
    · simp [PartB.fetchFilesSuccess, h1, h2, h3]
    · subst h2; simp [PartB.fetchFilesSuccess, h1]
    · have hne : resp ≠ [] := by intro h; subst h; simp at h2
      simp [PartB.fetchFilesSuccess, h1, h2, hne]

/-- Witness for C8: a selected id `"old"` missing from the refreshed
one-entry list falls back to that list's first id `"n1"`. -/
theorem C8_files_refresh_witness :
    (PartA.fetchFilesSuccess
        { PartA.initState with selectedFileId := some "old" }
        [⟨"n1", "f.csv", "2024-01-01"⟩]).selectedFileId = some "n1" :=
  (C8_files_refresh_fallback.1
      { PartA.initState with selectedFileId := some "old" }
      [⟨"n1", "f.csv", "2024-01-01"⟩]).1 (by decide) (by decide) (by decide)

/-- C9 (confirmed): in both variants, when the selected dataset id, the x
column, or the y column is absent, `fetchChartData` issues no request,
sets the chart result to `null`, and leaves the chart loading flag and
the chart error slot untouched. -/
theorem C9_chart_guard_no_fetch :
    (∀ s : PartA.State,
      (s.selectedFileId = none ∨ s.selectedXColumn = none ∨
        s.selectedYColumn = none) →
      (PartA.fetchChartStart s).2 = none ∧
      (PartA.fetchChartStart s).1.chartData = none ∧
      (PartA.fetchChartStart s).1.isLoadingChart = s.isLoadingChart ∧
      (PartA.fetchChartStart s).1.chartFetchError = s.chartFetchError) ∧
    (∀ s : PartB.State,
      (s.selectedFileId = none ∨ s.selectedXColumn = none ∨
        s.selectedYColumn = none) →
      (PartB.fetchChartStart s).2 = none ∧
      (PartB.fetchChartStart s).1.chartData = none ∧
      (PartB.fetchChartStart s).1.isLoadingChart = s.isLoadingChart ∧
      (PartB.fetchChartStart s).1.chartFetchError = s.chartFetchError) := by
  constructor
  · intro s h
    rcases h with h | h | h <;> simp [PartA.fetchChartStart, strTruthy, h]
  · intro s h
    rcases h with h | h | h <;> simp [PartB.fetchChartStart, strTruthy, h]

/-- Witness for C9: instantiated at each variant's initial state, where
no dataset is selected. -/
theorem C9_chart_guard_witness :
    (PartA.fetchChartStart PartA.initState).2 = none ∧
    (PartA.fetchChartStart PartA.initState).1.chartData = none ∧
    (PartB.fetchChartStart PartB.initState).2 = none :=
  ⟨(C9_chart_guard_no_fetch.1 PartA.initState (Or.inl rfl)).1,
   (C9_chart_guard_no_fetch.1 PartA.initState (Or.inl rfl)).2.1,
   (C9_chart_guard_no_fetch.2 PartB.initState (Or.inl rfl)).1⟩

/-- C10 (confirmed): in both variants, the table-page failure handler
clears the previously held table result (`setTableData(null)`) in
addition to recording the error and clearing the loading flag. -/
theorem C10_table_failure_clears_result :
    ∀ (sa : PartA.State) (sb : PartB.State),
      (PartA.fetchDataFailure sa).tableData = none ∧
      (PartA.fetchDataFailure sa).dataFetchError = some "Failed to fetch data." ∧
      (PartA.fetchDataFailure sa).isLoadingTable = false ∧
      (PartB.fetchDataFailure sb).tableData = none ∧
      (PartB.fetchDataFailure sb).dataFetchError = some "Failed to fetch data." ∧
      (PartB.fetchDataFailure sb).isLoadingTable = false :=
  fun sa sb => ⟨rfl, rfl, rfl, rfl, rfl, rfl⟩
